/-
Verification of the `sge-scene-manager` crate (`src/lib.rs`).

The crate manages a stack of boxed `Scene` trait objects.  We embed it
shallowly:

* A Rust `Box<dyn Scene<Context = C>>` becomes a `Scene C E Ev T` value:
  an identifier (used to record which scene a lifecycle callback was
  invoked on) together with one function per trait method.  The context
  type `C`, error type `E` (standing for `Box<dyn Error>`), event type
  `Ev` (standing for `sge::Event`) and time type `T` (standing for the
  `f64` elapsed time, which the manager only passes through) are type
  parameters.  A callback receives the context and returns the updated
  context together with its result; a scene's own mutable state
  (`&mut self`) is modelled as part of the context `C`, since the
  manager never inspects scene internals.
* `Vec<Box<dyn Scene>>` becomes `List (Scene C E Ev T)` with the *end*
  of the list as the top of the stack, matching `Vec::push` / `Vec::pop`
  / `Vec::last_mut` acting on the end of the vector.
* `Result<A, Box<dyn Error>>` becomes `Outcome E A`, with an extra
  `panicked` alternative for `Option::expect` failures (process abort).
  Because Rust callbacks mutate state behind `&mut` even when they later
  return `Err`, every operation returns its updated state alongside the
  `Outcome`; on `panicked` the process aborts, so the accompanying state
  is just the state at the panic point and carries no meaning.
* Every trait-method invocation the manager performs is recorded, in
  order, in an explicit trace (`List Call`) threaded through each
  operation, so that the callback sequences the specification talks
  about are visible as data.
* Rust's `for op in self.operations.drain(..) { op.apply_to(..)? }`
  empties the vector even when `?` returns early, because dropping the
  partially consumed `Drain` removes the remaining elements; the
  embedding therefore sets `operations := []` in every branch that is
  reached after the drain loop starts.
-/
import Mathlib

namespace SGEScene

mutual

/-- A boxed `dyn Scene` trait object: an identity (for the call trace) plus
one function per trait method of `Scene` in `src/lib.rs`.  Each method takes
the context and returns its result paired with the updated context. -/
inductive Scene (C E Ev T : Type) : Type where
  | mk
      (id : Nat)
      (on_enter : C → Except E Unit × C)
      (on_leave : C → Except E Unit × C)
      (on_pause : C → Bool → Except E Unit × C)
      (on_unpause : C → Except E Unit × C)
      (on_update : C → T → Except E (Transition C E Ev T) × C)
      (on_event : C → Ev → Except E (Bool × Transition C E Ev T) × C)
      (draw_next : C → Bool × C)

/-- `enum Transition<C>` from `src/lib.rs`. -/
inductive Transition (C E Ev T : Type) : Type where
  | None
  | Push (s : Scene C E Ev T)
  | Pop
  | Replace (s : Scene C E Ev T)

end

variable {C E Ev T : Type}

def Scene.id : Scene C E Ev T → Nat
  | .mk i _ _ _ _ _ _ _ => i

def Scene.on_enter : Scene C E Ev T → C → Except E Unit × C
  | .mk _ f _ _ _ _ _ _ => f

def Scene.on_leave : Scene C E Ev T → C → Except E Unit × C
  | .mk _ _ f _ _ _ _ _ => f

def Scene.on_pause : Scene C E Ev T → C → Bool → Except E Unit × C
  | .mk _ _ _ f _ _ _ _ => f

def Scene.on_unpause : Scene C E Ev T → C → Except E Unit × C
  | .mk _ _ _ _ f _ _ _ => f

def Scene.on_update : Scene C E Ev T → C → T → Except E (Transition C E Ev T) × C
  | .mk _ _ _ _ _ f _ _ => f

def Scene.on_event : Scene C E Ev T → C → Ev → Except E (Bool × Transition C E Ev T) × C
  | .mk _ _ _ _ _ _ f _ => f

def Scene.draw_next : Scene C E Ev T → C → Bool × C
  | .mk _ _ _ _ _ _ _ f => f

/-- One recorded trait-method invocation: which scene (by id) and which
method; for `on_pause` also the `should_draw` argument it received. -/
inductive Call : Type where
  | on_enter (id : Nat)
  | on_leave (id : Nat)
  | on_pause (id : Nat) (should_draw : Bool)
  | on_unpause (id : Nat)
  | on_update (id : Nat)
  | on_event (id : Nat)
  | draw_next (id : Nat)
  deriving DecidableEq, Repr

/-- Result of running a fallible Rust operation: `Ok val`, `Err e`, or a
panic (from `Option::expect`) that aborts the process. -/
inductive Outcome (E A : Type) : Type where
  | ok (val : A)
  | err (e : E)
  | panicked (msg : String)
  deriving DecidableEq, Repr

/-- `Transition::apply_to` from `src/lib.rs` (lines 58–96).  Takes the
scene stack and context (the two `&mut` arguments) plus the call trace;
returns the outcome together with the updated stack, context and trace. -/
def Transition.apply_to (t : Transition C E Ev T) (scenes : List (Scene C E Ev T))
    (ctx : C) (tr : List Call) :
    Outcome E Unit × List (Scene C E Ev T) × C × List Call :=
  match t with
  | Transition.Push new =>
    -- `if let Some(last) = scenes.last_mut() { ... }`
    let (pauseRes, ctx, tr) :=
      match scenes.getLast? with
      | some last =>
        let (dn, ctx) := new.draw_next ctx
        let tr := tr ++ [Call.draw_next new.id]
        let (r, ctx) := last.on_pause ctx dn
        (r, ctx, tr ++ [Call.on_pause last.id dn])
      | none => (Except.ok (), ctx, tr)
    match pauseRes with
    | Except.error e => (Outcome.err e, scenes, ctx, tr)
    | Except.ok _ =>
      let (r, ctx) := new.on_enter ctx
      let tr := tr ++ [Call.on_enter new.id]
      match r with
      | Except.error e => (Outcome.err e, scenes, ctx, tr)
      | Except.ok _ => (Outcome.ok (), scenes ++ [new], ctx, tr)
  | Transition.Pop =>
    -- `if let Some(mut old) = scenes.pop() { old.on_leave(ctx)?; }`
    match scenes.getLast? with
    | some old =>
      let scenes := scenes.dropLast
      let (r, ctx) := old.on_leave ctx
      let tr := tr ++ [Call.on_leave old.id]
      match r with
      | Except.error e => (Outcome.err e, scenes, ctx, tr)
      | Except.ok _ =>
        -- `if let Some(last) = scenes.last_mut() { last.on_unpause(ctx)?; }`
        match scenes.getLast? with
        | some last =>
          let (r, ctx) := last.on_unpause ctx
          let tr := tr ++ [Call.on_unpause last.id]
          match r with
          | Except.error e => (Outcome.err e, scenes, ctx, tr)
          | Except.ok _ => (Outcome.ok (), scenes, ctx, tr)
        | none => (Outcome.ok (), scenes, ctx, tr)
    | none => (Outcome.ok (), scenes, ctx, tr)
  | Transition.Replace new =>
    -- `scenes.last_mut().expect("Tried to replace a scene that does not exist")`
    match scenes.getLast? with
    | none => (Outcome.panicked "Tried to replace a scene that does not exist", scenes, ctx, tr)
    | some last =>
      let (dn, ctx) := new.draw_next ctx
      let tr := tr ++ [Call.draw_next new.id]
      let (r, ctx) := last.on_pause ctx dn
      let tr := tr ++ [Call.on_pause last.id dn]
      match r with
      | Except.error e => (Outcome.err e, scenes, ctx, tr)
      | Except.ok _ =>
        let (r, ctx) := new.on_enter ctx
        let tr := tr ++ [Call.on_enter new.id]
        match r with
        | Except.error e => (Outcome.err e, scenes, ctx, tr)
        | Except.ok _ =>
          -- `let mut old = std::mem::replace(last, new); old.on_leave(ctx)?;`
          let old := last
          let scenes := scenes.dropLast ++ [new]
          let (r, ctx) := old.on_leave ctx
          let tr := tr ++ [Call.on_leave old.id]
          match r with
          | Except.error e => (Outcome.err e, scenes, ctx, tr)
          | Except.ok _ => (Outcome.ok (), scenes, ctx, tr)
  | Transition.None => (Outcome.ok (), scenes, ctx, tr)

/-- `struct SceneManager<C>` from `src/lib.rs` (lines 98–103). -/
structure SceneManager (C E Ev T : Type) : Type where
  scenes : List (Scene C E Ev T)
  operations : List (Transition C E Ev T)
  ctx : C

/-- `SceneManager::new`. -/
def SceneManager.new (ctx : C) : SceneManager C E Ev T :=
  { scenes := [], operations := [], ctx := ctx }

/-- `SceneManager::apply`. -/
def SceneManager.apply (m : SceneManager C E Ev T) (t : Transition C E Ev T)
    (tr : List Call) : Outcome E Unit × SceneManager C E Ev T × List Call :=
  match t.apply_to m.scenes m.ctx tr with
  | (r, scenes, ctx, tr) => (r, { m with scenes := scenes, ctx := ctx }, tr)

/-- `SceneManager::push` (lines 119–123): direct push; calls `on_enter`
on the new scene, then appends it to the stack. -/
def SceneManager.push (m : SceneManager C E Ev T) (new : Scene C E Ev T)
    (tr : List Call) : Outcome E Unit × SceneManager C E Ev T × List Call :=
  let (r, ctx) := new.on_enter m.ctx
  let tr := tr ++ [Call.on_enter new.id]
  match r with
  | Except.error e => (Outcome.err e, { m with ctx := ctx }, tr)
  | Except.ok _ => (Outcome.ok (), { m with scenes := m.scenes ++ [new], ctx := ctx }, tr)

/-- `SceneManager::pop` (lines 125–131): pops the top scene (if any),
calls `on_leave` on it, and returns it. -/
def SceneManager.pop (m : SceneManager C E Ev T) (tr : List Call) :
    Outcome E (Option (Scene C E Ev T)) × SceneManager C E Ev T × List Call :=
  match m.scenes.getLast? with
  | none => (Outcome.ok Option.none, m, tr)
  | some old =>
    let scenes := m.scenes.dropLast
    let (r, ctx) := old.on_leave m.ctx
    let tr := tr ++ [Call.on_leave old.id]
    match r with
    | Except.error e => (Outcome.err e, { m with scenes := scenes, ctx := ctx }, tr)
    | Except.ok _ =>
      (Outcome.ok (Option.some old), { m with scenes := scenes, ctx := ctx }, tr)

/-- `SceneManager::replace` (lines 133–145): `expect`s a current top,
calls `on_enter` on the new scene, installs it in the top slot, then
calls `on_leave` on the old top and returns the old top. -/
def SceneManager.replace (m : SceneManager C E Ev T) (new : Scene C E Ev T)
    (tr : List Call) :
    Outcome E (Scene C E Ev T) × SceneManager C E Ev T × List Call :=
  match m.scenes.getLast? with
  | none => (Outcome.panicked "Tried to replace a scene that does not exist", m, tr)
  | some last =>
    let (r, ctx) := new.on_enter m.ctx
    let tr := tr ++ [Call.on_enter new.id]
    match r with
    | Except.error e => (Outcome.err e, { m with ctx := ctx }, tr)
    | Except.ok _ =>
      let old := last
      let scenes := m.scenes.dropLast ++ [new]
      let (r, ctx) := old.on_leave ctx
      let tr := tr ++ [Call.on_leave old.id]
      match r with
      | Except.error e => (Outcome.err e, { m with scenes := scenes, ctx := ctx }, tr)
      | Except.ok _ => (Outcome.ok old, { m with scenes := scenes, ctx := ctx }, tr)

/-- The walk phase of `SceneManager::on_update` (lines 155–161):
`for scene in self.scenes.iter_mut().rev() { ... }`.  The argument list is
the scene stack already reversed (top first).  Each visited scene's
`on_update` is invoked and its transition appended to the operations
buffer; the walk stops early (without an error) when a visited scene's
`draw_next` is `false`, and stops with an error when `on_update` fails.
Returns the outcome plus the updated operations buffer, context and
trace; it never panics and never modifies the stack. -/
def updateWalk (l : List (Scene C E Ev T)) (ctx : C) (t : T)
    (ops : List (Transition C E Ev T)) (tr : List Call) :
    Outcome E Unit × List (Transition C E Ev T) × C × List Call :=
  match l with
  | [] => (Outcome.ok (), ops, ctx, tr)
  | scene :: rest =>
    let (r, ctx) := scene.on_update ctx t
    let tr := tr ++ [Call.on_update scene.id]
    match r with
    | Except.error e => (Outcome.err e, ops, ctx, tr)
    | Except.ok tn =>
      let ops := ops ++ [tn]
      let (dn, ctx) := scene.draw_next ctx
      let tr := tr ++ [Call.draw_next scene.id]
      if dn then updateWalk rest ctx t ops tr
      else (Outcome.ok (), ops, ctx, tr)

/-- The walk phase of `SceneManager::on_event` (lines 170–178).  Like
`updateWalk`, but accumulates the `was_handled` flag (returned as the
`Bool` component) and also stops, before querying `draw_next`, when the
visited scene reports the event handled (`if handled || !scene.draw_next(..)`
short-circuits, so `draw_next` is not queried when `handled` is true). -/
def eventWalk (l : List (Scene C E Ev T)) (ctx : C) (ev : Ev) (was_handled : Bool)
    (ops : List (Transition C E Ev T)) (tr : List Call) :
    Outcome E Unit × Bool × List (Transition C E Ev T) × C × List Call :=
  match l with
  | [] => (Outcome.ok (), was_handled, ops, ctx, tr)
  | scene :: rest =>
    let (r, ctx) := scene.on_event ctx ev
    let tr := tr ++ [Call.on_event scene.id]
    match r with
    | Except.error e => (Outcome.err e, was_handled, ops, ctx, tr)
    | Except.ok (handled, tn) =>
      let was_handled := was_handled || handled
      let ops := ops ++ [tn]
      if handled then (Outcome.ok (), was_handled, ops, ctx, tr)
      else
        let (dn, ctx) := scene.draw_next ctx
        let tr := tr ++ [Call.draw_next scene.id]
        if dn then eventWalk rest ctx ev was_handled ops tr
        else (Outcome.ok (), was_handled, ops, ctx, tr)

/-- The drain phase shared by `on_update` and `on_event`
(`for op in self.operations.drain(..) { op.apply_to(..)?; }`): apply the
drained transitions in order, stopping at the first error or panic.  The
operations buffer itself is emptied by the caller in every case, because
dropping a partially consumed `Drain` removes the remaining elements. -/
def drainApply (ops : List (Transition C E Ev T)) (scenes : List (Scene C E Ev T))
    (ctx : C) (tr : List Call) :
    Outcome E Unit × List (Scene C E Ev T) × C × List Call :=
  match ops with
  | [] => (Outcome.ok (), scenes, ctx, tr)
  | op :: rest =>
    match op.apply_to scenes ctx tr with
    | (Outcome.ok _, scenes, ctx, tr) => drainApply rest scenes ctx tr
    | (Outcome.err e, scenes, ctx, tr) => (Outcome.err e, scenes, ctx, tr)
    | (Outcome.panicked msg, scenes, ctx, tr) => (Outcome.panicked msg, scenes, ctx, tr)

/-- `SceneManager::on_update` (lines 154–167): walk the stack top-down
collecting transitions, then drain and apply them, then return
`Ok(!self.scenes.is_empty())`.  If the walk fails, the collected
transitions stay in the operations buffer (the drain loop is never
reached); if an application in the drain loop fails, the buffer is
still emptied (Drain drop). -/
def SceneManager.on_update (m : SceneManager C E Ev T) (t : T) (tr : List Call) :
    Outcome E Bool × SceneManager C E Ev T × List Call :=
  match updateWalk m.scenes.reverse m.ctx t m.operations tr with
  | (Outcome.err e, ops, ctx, tr) =>
    (Outcome.err e, { m with operations := ops, ctx := ctx }, tr)
  | (Outcome.panicked msg, ops, ctx, tr) =>
    (Outcome.panicked msg, { m with operations := ops, ctx := ctx }, tr)
  | (Outcome.ok _, ops, ctx, tr) =>
    match drainApply ops m.scenes ctx tr with
    | (Outcome.ok _, scenes, ctx, tr) =>
      (Outcome.ok (!scenes.isEmpty), { scenes := scenes, operations := [], ctx := ctx }, tr)
    | (Outcome.err e, scenes, ctx, tr) =>
      (Outcome.err e, { scenes := scenes, operations := [], ctx := ctx }, tr)
    | (Outcome.panicked msg, scenes, ctx, tr) =>
      (Outcome.panicked msg, { scenes := scenes, operations := [], ctx := ctx }, tr)

/-- `SceneManager::on_event` (lines 169–183): walk the stack top-down
collecting transitions and accumulating `was_handled`, then drain and
apply the transitions, then return `Ok(was_handled)`. -/
def SceneManager.on_event (m : SceneManager C E Ev T) (ev : Ev) (tr : List Call) :
    Outcome E Bool × SceneManager C E Ev T × List Call :=
  match eventWalk m.scenes.reverse m.ctx ev false m.operations tr with
  | (Outcome.err e, _, ops, ctx, tr) =>
    (Outcome.err e, { m with operations := ops, ctx := ctx }, tr)
  | (Outcome.panicked msg, _, ops, ctx, tr) =>
    (Outcome.panicked msg, { m with operations := ops, ctx := ctx }, tr)
  | (Outcome.ok _, was_handled, ops, ctx, tr) =>
    match drainApply ops m.scenes ctx tr with
    | (Outcome.ok _, scenes, ctx, tr) =>
      (Outcome.ok was_handled, { scenes := scenes, operations := [], ctx := ctx }, tr)
    | (Outcome.err e, scenes, ctx, tr) =>
      (Outcome.err e, { scenes := scenes, operations := [], ctx := ctx }, tr)
    | (Outcome.panicked msg, scenes, ctx, tr) =>
      (Outcome.panicked msg, { scenes := scenes, operations := [], ctx := ctx }, tr)

/-! ### Concrete instantiation used by the witnesses -/

/-- Witness instantiation: context, error, event and time are all `Nat`. -/
abbrev NScene := Scene Nat Nat Nat Nat

abbrev NTransition := Transition Nat Nat Nat Nat

/-- A scene with identifier `i`, a fixed `draw_next` answer `dn`, and fixed
`on_update` / `on_event` results; the four lifecycle callbacks succeed and
leave the context unchanged. -/
def mkScene (i : Nat) (dn : Bool) (upd : Except Nat NTransition)
    (ev : Except Nat (Bool × NTransition)) : NScene :=
  Scene.mk i
    (fun c => (Except.ok (), c))
    (fun c => (Except.ok (), c))
    (fun c _ => (Except.ok (), c))
    (fun c => (Except.ok (), c))
    (fun c _ => (upd, c))
    (fun c _ => (ev, c))
    (fun c => (dn, c))

/-- Scene 0: draws through is off, idle update/event. -/
def sceneA : NScene :=
  mkScene 0 false (Except.ok Transition.None) (Except.ok (false, Transition.None))

/-- Scene 1: draws through, idle update/event. -/
def sceneB : NScene :=
  mkScene 1 true (Except.ok Transition.None) (Except.ok (false, Transition.None))

/-- Scene 2: draws through, requests a `Pop` on update, handles events. -/
def sceneC : NScene :=
  mkScene 2 true (Except.ok Transition.Pop) (Except.ok (true, Transition.None))

/-- Scene 3: fails with error 7 in `on_update` and `on_event`. -/
def sceneErr : NScene :=
  mkScene 3 true (Except.error 7) (Except.error 7)

/-- A scene whose `on_leave` fails with error 9 (identifier 4). -/
def sceneBadLeave : NScene :=
  Scene.mk 4
    (fun c => (Except.ok (), c))
    (fun c => (Except.error 9, c))
    (fun c _ => (Except.ok (), c))
    (fun c => (Except.ok (), c))
    (fun c _ => (Except.ok Transition.None, c))
    (fun c _ => (Except.ok (false, Transition.None), c))
    (fun c => (false, c))

/-- A scene (identifier 5) whose `on_update` fails with error 7 when the
context is 0 and succeeds otherwise; each `on_update` call increments the
context. -/
def sceneFlaky : NScene :=
  Scene.mk 5
    (fun c => (Except.ok (), c))
    (fun c => (Except.ok (), c))
    (fun c _ => (Except.ok (), c))
    (fun c => (Except.ok (), c))
    (fun c _ =>
      if c = 0 then (Except.error 7, c + 1) else (Except.ok Transition.None, c + 1))
    (fun c _ => (Except.ok (false, Transition.None), c))
    (fun c => (true, c))

/-- Manager whose first `on_update` frame fails mid-walk: the top scene 2
requests a `Pop`, then scene 5's `on_update` fails (context 0). -/
def mgrLeak : SceneManager Nat Nat Nat Nat :=
  SceneManager.mk [sceneFlaky, sceneC] [] 0

/-! ### Claim theorems -/

/-- C6: applying `Transition::Push(new)` to an empty stack calls only
`new.on_enter` (no `on_pause`); on a non-empty stack it queries
`new.draw_next`, passes the result to the current top's `on_pause`, then
calls `new.on_enter`, and appends `new` (making it the top) only after both
callbacks succeed — when either callback fails the stack is unchanged. -/
theorem push_transition_lifecycle (init : List (Scene C E Ev T))
    (last new : Scene C E Ev T) (ctx : C) (tr : List Call) :
    (∀ c1, new.on_enter ctx = (Except.ok (), c1) →
      Transition.apply_to (Transition.Push new) [] ctx tr =
        (Outcome.ok (), [new], c1, tr ++ [Call.on_enter new.id]))
    ∧ (∀ dn c1 c2 c3,
        new.draw_next ctx = (dn, c1) →
        last.on_pause c1 dn = (Except.ok (), c2) →
        new.on_enter c2 = (Except.ok (), c3) →
        Transition.apply_to (Transition.Push new) (init ++ [last]) ctx tr =
          (Outcome.ok (), init ++ [last, new], c3,
            tr ++ [Call.draw_next new.id, Call.on_pause last.id dn, Call.on_enter new.id]))
    ∧ (∀ dn c1 e c2,
        new.draw_next ctx = (dn, c1) →
        last.on_pause c1 dn = (Except.error e, c2) →
        Transition.apply_to (Transition.Push new) (init ++ [last]) ctx tr =
          (Outcome.err e, init ++ [last], c2,
            tr ++ [Call.draw_next new.id, Call.on_pause last.id dn]))
    ∧ (∀ dn c1 c2 e c3,
        new.draw_next ctx = (dn, c1) →
        last.on_pause c1 dn = (Except.ok (), c2) →
        new.on_enter c2 = (Except.error e, c3) →
        Transition.apply_to (Transition.Push new) (init ++ [last]) ctx tr =
          (Outcome.err e, init ++ [last], c3,
            tr ++ [Call.draw_next new.id, Call.on_pause last.id dn, Call.on_enter new.id])) := by
  refine ⟨?_, ?_, ?_, ?_⟩
  · intro c1 he
    simp [Transition.apply_to, he]
  · intro dn c1 c2 c3 hdn hp he
    simp [Transition.apply_to, List.getLast?_concat, hdn, hp, he]
  · intro dn c1 e c2 hdn hp
    simp [Transition.apply_to, List.getLast?_concat, hdn, hp]
  · intro dn c1 c2 e c3 hdn hp he
    simp [Transition.apply_to, List.getLast?_concat, hdn, hp, he]

/-- Witness for C6: pushing scene 1 onto the stack `[scene 0]` records
`draw_next(1)`, `on_pause(0, true)`, `on_enter(1)` in that order, and
pushing it onto the empty stack records only `on_enter(1)`. -/
theorem push_transition_lifecycle_witness :
    Transition.apply_to (Transition.Push sceneB) ([] ++ [sceneA]) 5 [] =
      (Outcome.ok (), [sceneA, sceneB], 5,
        [Call.draw_next 1, Call.on_pause 0 true, Call.on_enter 1])
    ∧ Transition.apply_to (Transition.Push sceneB) [] 5 [] =
      (Outcome.ok (), [sceneB], 5, [Call.on_enter 1]) :=
  ⟨(push_transition_lifecycle [] sceneA sceneB 5 []).2.1 true 5 5 5 rfl rfl rfl,
   (push_transition_lifecycle [] sceneA sceneB 5 []).1 5 rfl⟩

/-- C7: applying `Transition::Replace(new)` to a non-empty stack with top
`old` performs, in order, `new.draw_next`, `old.on_pause` with that value,
`new.on_enter`, installs `new` in the top slot, and calls `old.on_leave`
strictly last — `new` is already installed when `on_leave` runs, as the
failure case of `on_leave` shows. -/
theorem replace_transition_lifecycle (init : List (Scene C E Ev T))
    (old new : Scene C E Ev T) (ctx : C) (tr : List Call) :
    (∀ dn c1 c2 c3 c4,
      new.draw_next ctx = (dn, c1) →
      old.on_pause c1 dn = (Except.ok (), c2) →
      new.on_enter c2 = (Except.ok (), c3) →
      old.on_leave c3 = (Except.ok (), c4) →
      Transition.apply_to (Transition.Replace new) (init ++ [old]) ctx tr =
        (Outcome.ok (), init ++ [new], c4,
          tr ++ [Call.draw_next new.id, Call.on_pause old.id dn,
                 Call.on_enter new.id, Call.on_leave old.id]))
    ∧ (∀ dn c1 c2 c3 e c4,
      new.draw_next ctx = (dn, c1) →
      old.on_pause c1 dn = (Except.ok (), c2) →
      new.on_enter c2 = (Except.ok (), c3) →
      old.on_leave c3 = (Except.error e, c4) →
      Transition.apply_to (Transition.Replace new) (init ++ [old]) ctx tr =
        (Outcome.err e, init ++ [new], c4,
          tr ++ [Call.draw_next new.id, Call.on_pause old.id dn,
                 Call.on_enter new.id, Call.on_leave old.id])) := by
  constructor
  · intro dn c1 c2 c3 c4 hdn hp he hl
    simp [Transition.apply_to, List.getLast?_concat, hdn, hp, he, hl]
  · intro dn c1 c2 c3 e c4 hdn hp he hl
    simp [Transition.apply_to, List.getLast?_concat, hdn, hp, he, hl]

/-- Witness for C7: replacing the top of `[scene 0, scene 4]` by scene 1
records `draw_next(1)`, `on_pause(4, true)`, `on_enter(1)`, `on_leave(4)`
in that order; with scene 4's failing `on_leave` the error is returned but
scene 1 is already installed. -/
theorem replace_transition_lifecycle_witness :
    Transition.apply_to (Transition.Replace sceneB) ([sceneA] ++ [sceneBadLeave]) 5 [] =
      (Outcome.err 9, [sceneA] ++ [sceneB], 5,
        [Call.draw_next 1, Call.on_pause 4 true, Call.on_enter 1, Call.on_leave 4]) :=
  (replace_transition_lifecycle [sceneA] sceneBadLeave sceneB 5 []).2
    true 5 5 5 9 5 rfl rfl rfl rfl

/-- C8: applying `Transition::Pop` to a non-empty stack removes the top,
calls `on_leave` on it, then `on_unpause` on the newly exposed top if one
remains, in that order; popping an empty stack (via the transition or via
`SceneManager::pop`) is a no-op returning an empty success. -/
theorem pop_transition_lifecycle (init : List (Scene C E Ev T))
    (below old : Scene C E Ev T) (ctx : C) (tr : List Call)
    (m : SceneManager C E Ev T) :
    (∀ c1 c2,
      old.on_leave ctx = (Except.ok (), c1) →
      below.on_unpause c1 = (Except.ok (), c2) →
      Transition.apply_to Transition.Pop ((init ++ [below]) ++ [old]) ctx tr =
        (Outcome.ok (), init ++ [below], c2,
          tr ++ [Call.on_leave old.id, Call.on_unpause below.id]))
    ∧ (∀ c1, old.on_leave ctx = (Except.ok (), c1) →
      Transition.apply_to Transition.Pop [old] ctx tr =
        (Outcome.ok (), [], c1, tr ++ [Call.on_leave old.id]))
    ∧ Transition.apply_to (Transition.Pop : Transition C E Ev T) [] ctx tr =
        (Outcome.ok (), [], ctx, tr)
    ∧ (m.scenes = [] → m.pop tr = (Outcome.ok Option.none, m, tr)) := by
  refine ⟨?_, ?_, ?_, ?_⟩
  · intro c1 c2 hl hu
    simp [Transition.apply_to, List.getLast?_concat, List.dropLast_concat, hl, hu]
  · intro c1 hl
    simp [Transition.apply_to, hl]
  · simp [Transition.apply_to]
  · intro hm
    simp [SceneManager.pop, hm]

/-- Witness for C8: popping `[scene 0, scene 1]` records `on_leave(1)` then
`on_unpause(0)` and leaves `[scene 0]`; popping an empty stack either way is
a successful no-op. -/
theorem pop_transition_lifecycle_witness :
    Transition.apply_to Transition.Pop (([] ++ [sceneA]) ++ [sceneB]) 5 [] =
      (Outcome.ok (), [sceneA], 5, [Call.on_leave 1, Call.on_unpause 0])
    ∧ Transition.apply_to Transition.Pop ([] : List NScene) 5 [] =
      (Outcome.ok (), [], 5, [])
    ∧ (SceneManager.new 5 : SceneManager Nat Nat Nat Nat).pop [] =
      (Outcome.ok Option.none, SceneManager.new 5, []) :=
  ⟨(pop_transition_lifecycle [] sceneA sceneB 5 [] (SceneManager.new 5)).1 5 5 rfl rfl,
   (pop_transition_lifecycle [] sceneA sceneB 5 [] (SceneManager.new 5)).2.2.1,
   (pop_transition_lifecycle [] sceneA sceneB 5 [] (SceneManager.new 5)).2.2.2 rfl⟩

/-- C9: replacing when the stack is empty — whether through
`Transition::Replace` or `SceneManager::replace` — panics with the
`expect` message instead of returning an `Err` value. -/
theorem replace_empty_panics (new : Scene C E Ev T) (ctx : C) (tr : List Call)
    (m : SceneManager C E Ev T) (hm : m.scenes = []) :
    Transition.apply_to (Transition.Replace new) [] ctx tr =
      (Outcome.panicked "Tried to replace a scene that does not exist", [], ctx, tr)
    ∧ m.replace new tr =
      (Outcome.panicked "Tried to replace a scene that does not exist", m, tr) := by
  constructor
  · simp [Transition.apply_to]
  · simp [SceneManager.replace, hm]

/-- Witness for C9: replacing on a freshly created (empty) manager panics. -/
theorem replace_empty_panics_witness :
    Transition.apply_to (Transition.Replace sceneB) ([] : List NScene) 5 [] =
      (Outcome.panicked "Tried to replace a scene that does not exist", [], 5, [])
    ∧ (SceneManager.new 5 : SceneManager Nat Nat Nat Nat).replace sceneB [] =
      (Outcome.panicked "Tried to replace a scene that does not exist",
        SceneManager.new 5, []) :=
  replace_empty_panics sceneB 5 [] (SceneManager.new 5) rfl

/-- C10: when `on_leave` fails during a pop of a non-empty stack, the pop
has already happened: the stack is one scene shorter, the newly exposed
top's `on_unpause` is never invoked (the trace ends at `on_leave`), the
error is returned, and `SceneManager::pop` loses the removed scene (the
`Err` outcome carries no scene). -/
theorem pop_leave_error_not_atomic (init : List (Scene C E Ev T))
    (old : Scene C E Ev T) (ctx c1 : C) (e : E) (tr : List Call)
    (hl : old.on_leave ctx = (Except.error e, c1)) :
    Transition.apply_to Transition.Pop (init ++ [old]) ctx tr =
      (Outcome.err e, init, c1, tr ++ [Call.on_leave old.id])
    ∧ (∀ m : SceneManager C E Ev T, m.scenes = init ++ [old] → m.ctx = ctx →
        m.pop tr =
          (Outcome.err e, { m with scenes := init, ctx := c1 },
            tr ++ [Call.on_leave old.id])) := by
  constructor
  · simp [Transition.apply_to, List.getLast?_concat, List.dropLast_concat, hl]
  · intro m hms hmc
    simp [SceneManager.pop, hms, hmc, List.getLast?_concat, List.dropLast_concat, hl]

/-- Witness for C10: popping `[scene 0, scene 4]` where scene 4's `on_leave`
fails leaves the one-element stack `[scene 0]`, records no `on_unpause`,
and the direct `pop` returns the error without the removed scene. -/
theorem pop_leave_error_not_atomic_witness :
    Transition.apply_to Transition.Pop ([sceneA] ++ [sceneBadLeave]) 5 [] =
      (Outcome.err 9, [sceneA], 5, [Call.on_leave 4])
    ∧ (SceneManager.mk ([sceneA] ++ [sceneBadLeave]) [] 5).pop [] =
      (Outcome.err 9, SceneManager.mk [sceneA] [] 5, [Call.on_leave 4]) :=
  ⟨(pop_leave_error_not_atomic [sceneA] sceneBadLeave 5 5 9 [] rfl).1,
   (pop_leave_error_not_atomic [sceneA] sceneBadLeave 5 5 9 [] rfl).2
     (SceneManager.mk ([sceneA] ++ [sceneBadLeave]) [] 5) rfl rfl⟩

/-- C3: when a visited scene's `on_update` fails during the walk, the walk
stops at that scene (the trace gains only that scene's `on_update` call and
the operations buffer gains nothing, so scenes further down are never
visited), and the whole dispatch returns that error with the scene stack
untouched — none of the transitions collected earlier in the frame is
applied during this call. -/
theorem update_error_aborts_frame (m : SceneManager C E Ev T) (t : T)
    (tr : List Call) :
    (∀ (scene : Scene C E Ev T) rest ctx2 ops2 tr2 e c2,
      scene.on_update ctx2 t = (Except.error e, c2) →
      updateWalk (scene :: rest) ctx2 t ops2 tr2 =
        (Outcome.err e, ops2, c2, tr2 ++ [Call.on_update scene.id]))
    ∧ (∀ e ops2 ctx2 tr2,
      updateWalk m.scenes.reverse m.ctx t m.operations tr =
        (Outcome.err e, ops2, ctx2, tr2) →
      m.on_update t tr =
        (Outcome.err e, { m with operations := ops2, ctx := ctx2 }, tr2)) := by
  constructor
  · intro scene rest ctx2 ops2 tr2 e c2 hu
    simp [updateWalk, hu]
  · intro e ops2 ctx2 tr2 hw
    simp [SceneManager.on_update, hw]

/-- Witness for C3: with stack `[scene 0 (bottom), scene 3, scene 2 (top)]`
where scene 2 requests `Pop` and draws through and scene 3's `on_update`
fails with error 7, the dispatch visits 2 then 3 only, returns error 7,
applies nothing, and never visits scene 0. -/
theorem update_error_aborts_frame_witness :
    updateWalk [sceneErr, sceneA] 5 0 [Transition.Pop] [Call.on_update 2, Call.draw_next 2] =
      (Outcome.err 7, [Transition.Pop], 5,
        [Call.on_update 2, Call.draw_next 2, Call.on_update 3])
    ∧ (SceneManager.mk [sceneA, sceneErr, sceneC] [] 5).on_update 0 [] =
      (Outcome.err 7,
        SceneManager.mk [sceneA, sceneErr, sceneC] [Transition.Pop] 5,
        [Call.on_update 2, Call.draw_next 2, Call.on_update 3]) :=
  ⟨(update_error_aborts_frame (SceneManager.mk [sceneA, sceneErr, sceneC] [] 5) 0 []).1
      sceneErr [sceneA] 5 [Transition.Pop] [Call.on_update 2, Call.draw_next 2] 7 5 rfl,
   (update_error_aborts_frame (SceneManager.mk [sceneA, sceneErr, sceneC] [] 5) 0 []).2
      7 [Transition.Pop] 5 [Call.on_update 2, Call.draw_next 2, Call.on_update 3] rfl⟩

/-- C4: with all callbacks succeeding, `on_update` walks the stack from the
top downwards (the reversed stack), invoking each visited scene's
`on_update` and appending its transition to the buffer, continues past a
scene exactly when its `draw_next` is true, then applies the recorded
transitions in visit order (each drained transition is applied before the
rest, on the state the previous applications produced), and returns
`Ok(true)` iff the stack is non-empty after all applications. -/
theorem update_dispatch_functional (m : SceneManager C E Ev T) (t : T)
    (tr : List Call) :
    (∀ (scene : Scene C E Ev T) rest ctx2 ops2 tr2 tn c1 dn c2,
      scene.on_update ctx2 t = (Except.ok tn, c1) →
      scene.draw_next c1 = (dn, c2) →
      updateWalk (scene :: rest) ctx2 t ops2 tr2 =
        if dn then
          updateWalk rest c2 t (ops2 ++ [tn])
            (tr2 ++ [Call.on_update scene.id, Call.draw_next scene.id])
        else
          (Outcome.ok (), ops2 ++ [tn], c2,
            tr2 ++ [Call.on_update scene.id, Call.draw_next scene.id]))
    ∧ (∀ (op : Transition C E Ev T) rest scenes2 ctx2 tr2 scenes3 ctx3 tr3,
      op.apply_to scenes2 ctx2 tr2 = (Outcome.ok (), scenes3, ctx3, tr3) →
      drainApply (op :: rest) scenes2 ctx2 tr2 = drainApply rest scenes3 ctx3 tr3)
    ∧ (∀ ops2 ctx2 tr2 scenes3 ctx3 tr3,
      updateWalk m.scenes.reverse m.ctx t m.operations tr =
        (Outcome.ok (), ops2, ctx2, tr2) →
      drainApply ops2 m.scenes ctx2 tr2 = (Outcome.ok (), scenes3, ctx3, tr3) →
      m.on_update t tr =
        (Outcome.ok (!scenes3.isEmpty),
          { scenes := scenes3, operations := [], ctx := ctx3 }, tr3)) := by
  refine ⟨?_, ?_, ?_⟩
  · intro scene rest ctx2 ops2 tr2 tn c1 dn c2 hu hd
    cases dn <;> simp [updateWalk, hu, hd]
  · intro op rest scenes2 ctx2 tr2 scenes3 ctx3 tr3 ha
    simp [drainApply, ha]
  · intro ops2 ctx2 tr2 scenes3 ctx3 tr3 hw hd
    simp [SceneManager.on_update, hw, hd]

/-- Witness for C4: the stack `[scene 1 (bottom), scene 0, scene 2 (top)]`
with `scene 2.draw_next = true` and `scene 0.draw_next = false` visits 2
then 0 and never scene 1; scene 2's `Pop` and scene 0's `None` are applied
in that order, leaving `[scene 1, scene 0]`, and the dispatch returns
`Ok(true)`. -/
theorem update_dispatch_functional_witness :
    (SceneManager.mk [sceneB, sceneA, sceneC] [] 5).on_update 0 [] =
      (Outcome.ok true, SceneManager.mk [sceneB, sceneA] [] 5,
        [Call.on_update 2, Call.draw_next 2, Call.on_update 0, Call.draw_next 0,
         Call.on_leave 2, Call.on_unpause 0]) :=
  (update_dispatch_functional (SceneManager.mk [sceneB, sceneA, sceneC] [] 5) 0 []).2.2
    [Transition.Pop, Transition.None] 5
    [Call.on_update 2, Call.draw_next 2, Call.on_update 0, Call.draw_next 0]
    [sceneB, sceneA] 5
    [Call.on_update 2, Call.draw_next 2, Call.on_update 0, Call.draw_next 0,
     Call.on_leave 2, Call.on_unpause 0]
    rfl rfl

/-- C5: `on_event` walks the stack top-down, invoking each visited scene's
`on_event` and recording its transition whether or not the event was
handled; when the visited scene reports the event handled the walk stops
without even querying `draw_next`, otherwise it stops iff `draw_next` is
false; the dispatch then applies the recorded transitions in visit order
and returns the disjunction of the visited scenes' handled flags. -/
theorem event_dispatch_functional (m : SceneManager C E Ev T) (ev : Ev)
    (tr : List Call) :
    (∀ (scene : Scene C E Ev T) rest ctx2 wh ops2 tr2 tn c1,
      scene.on_event ctx2 ev = (Except.ok (true, tn), c1) →
      eventWalk (scene :: rest) ctx2 ev wh ops2 tr2 =
        (Outcome.ok (), true, ops2 ++ [tn], c1, tr2 ++ [Call.on_event scene.id]))
    ∧ (∀ (scene : Scene C E Ev T) rest ctx2 wh ops2 tr2 tn c1 dn c2,
      scene.on_event ctx2 ev = (Except.ok (false, tn), c1) →
      scene.draw_next c1 = (dn, c2) →
      eventWalk (scene :: rest) ctx2 ev wh ops2 tr2 =
        if dn then
          eventWalk rest c2 ev wh (ops2 ++ [tn])
            (tr2 ++ [Call.on_event scene.id, Call.draw_next scene.id])
        else
          (Outcome.ok (), wh, ops2 ++ [tn], c2,
            tr2 ++ [Call.on_event scene.id, Call.draw_next scene.id]))
    ∧ (∀ wh ops2 ctx2 tr2 scenes3 ctx3 tr3,
      eventWalk m.scenes.reverse m.ctx ev false m.operations tr =
        (Outcome.ok (), wh, ops2, ctx2, tr2) →
      drainApply ops2 m.scenes ctx2 tr2 = (Outcome.ok (), scenes3, ctx3, tr3) →
      m.on_event ev tr =
        (Outcome.ok wh, { scenes := scenes3, operations := [], ctx := ctx3 }, tr3)) := by
  refine ⟨?_, ?_, ?_⟩
  · intro scene rest ctx2 wh ops2 tr2 tn c1 he
    simp [eventWalk, he]
  · intro scene rest ctx2 wh ops2 tr2 tn c1 dn c2 he hd
    cases dn <;> simp [eventWalk, he, hd]
  · intro wh ops2 ctx2 tr2 scenes3 ctx3 tr3 hw hd
    simp [SceneManager.on_event, hw, hd]

/-- Witness for C5: on the stack `[scene 0, scene 1, scene 2 (top)]` where
scene 2 handles events and draws through, the walk stops at scene 2 even
though its `draw_next` is true (`draw_next` is never queried), the recorded
transition is applied, and the dispatch reports the event handled. -/
theorem event_dispatch_functional_witness :
    eventWalk [sceneC, sceneB, sceneA] 5 0 false [] [] =
      (Outcome.ok (), true, [Transition.None], 5, [Call.on_event 2])
    ∧ (SceneManager.mk [sceneA, sceneB, sceneC] [] 5).on_event 0 [] =
      (Outcome.ok true, SceneManager.mk [sceneA, sceneB, sceneC] [] 5,
        [Call.on_event 2]) :=
  ⟨(event_dispatch_functional (SceneManager.mk [sceneA, sceneB, sceneC] [] 5) 0 []).1
      sceneC [sceneB, sceneA] 5 false [] [] Transition.None 5 rfl,
   (event_dispatch_functional (SceneManager.mk [sceneA, sceneB, sceneC] [] 5) 0 []).2.2
      true [Transition.None] 5 [Call.on_event 2] [sceneA, sceneB, sceneC] 5
      [Call.on_event 2] rfl rfl⟩

/-- C1 counterexample: the direct methods do not perform the same
lifecycle-callback sequence as the corresponding `Transition` variants.
On the stack `[scene 0]`, direct `push` records only `on_enter(1)` while
`apply(Push)` records `draw_next(1)`, `on_pause(0, true)`, `on_enter(1)`;
on `[scene 0, scene 1]`, direct `pop` records only `on_leave(1)` (no
`on_unpause(0)`), and direct `replace` records `on_enter(2)`, `on_leave(1)`
(no `draw_next`/`on_pause`). -/
theorem direct_methods_differ_counterexample :
    ((SceneManager.mk [sceneA] [] 5).push sceneB []).2.2 ≠
      ((SceneManager.mk [sceneA] [] 5).apply (Transition.Push sceneB) []).2.2
    ∧ ((SceneManager.mk [sceneA] [] 5).push sceneB []).2.2 = [Call.on_enter 1]
    ∧ ((SceneManager.mk [sceneA] [] 5).apply (Transition.Push sceneB) []).2.2 =
        [Call.draw_next 1, Call.on_pause 0 true, Call.on_enter 1]
    ∧ ((SceneManager.mk [sceneA, sceneB] [] 5).pop []).2.2 ≠
      ((SceneManager.mk [sceneA, sceneB] [] 5).apply Transition.Pop []).2.2
    ∧ ((SceneManager.mk [sceneA, sceneB] [] 5).pop []).2.2 = [Call.on_leave 1]
    ∧ ((SceneManager.mk [sceneA, sceneB] [] 5).apply Transition.Pop []).2.2 =
        [Call.on_leave 1, Call.on_unpause 0]
    ∧ ((SceneManager.mk [sceneA, sceneB] [] 5).replace sceneC []).2.2 ≠
      ((SceneManager.mk [sceneA, sceneB] [] 5).apply (Transition.Replace sceneC) []).2.2
    ∧ ((SceneManager.mk [sceneA, sceneB] [] 5).replace sceneC []).2.2 =
        [Call.on_enter 2, Call.on_leave 1]
    ∧ ((SceneManager.mk [sceneA, sceneB] [] 5).apply (Transition.Replace sceneC) []).2.2 =
        [Call.draw_next 2, Call.on_pause 1 true, Call.on_enter 2, Call.on_leave 1] :=
  ⟨by decide, rfl, rfl, by decide, rfl, rfl, by decide, rfl, rfl⟩

/-- C1 amended: the direct methods perform strictly smaller callback
sequences than the corresponding `Transition` variants. `push` calls only
`on_enter` on the new scene before appending it, with no `draw_next` query
and no `on_pause` on the current top even when the stack is non-empty;
`pop` calls only `on_leave` on the removed scene, with no `on_unpause` on
the newly exposed top, and returns the removed scene; `replace` calls
`on_enter` on the new scene, installs it, then `on_leave` on the old top,
with no `draw_next` query and no `on_pause`. -/
theorem direct_methods_lifecycle (m : SceneManager C E Ev T)
    (new : Scene C E Ev T) (init : List (Scene C E Ev T))
    (old : Scene C E Ev T) (tr : List Call) :
    (∀ c1, new.on_enter m.ctx = (Except.ok (), c1) →
      m.push new tr =
        (Outcome.ok (), { m with scenes := m.scenes ++ [new], ctx := c1 },
          tr ++ [Call.on_enter new.id]))
    ∧ (m.scenes = init ++ [old] →
      ∀ c1, old.on_leave m.ctx = (Except.ok (), c1) →
      m.pop tr =
        (Outcome.ok (Option.some old), { m with scenes := init, ctx := c1 },
          tr ++ [Call.on_leave old.id]))
    ∧ (m.scenes = init ++ [old] →
      ∀ c1 c2, new.on_enter m.ctx = (Except.ok (), c1) →
      old.on_leave c1 = (Except.ok (), c2) →
      m.replace new tr =
        (Outcome.ok old, { m with scenes := init ++ [new], ctx := c2 },
          tr ++ [Call.on_enter new.id, Call.on_leave old.id])) := by
  refine ⟨?_, ?_, ?_⟩
  · intro c1 he
    simp [SceneManager.push, he]
  · intro hms c1 hl
    simp [SceneManager.pop, hms, List.getLast?_concat, List.dropLast_concat, hl]
  · intro hms c1 c2 he hl
    simp [SceneManager.replace, hms, List.getLast?_concat, List.dropLast_concat, he, hl]

/-- Witness for the amended C1: direct `push`, `pop` and `replace` on
small concrete stacks produce exactly the single-callback (respectively
two-callback) traces the amended claim describes. -/
theorem direct_methods_lifecycle_witness :
    (SceneManager.mk [sceneA] [] 5).push sceneB [] =
      (Outcome.ok (), SceneManager.mk [sceneA, sceneB] [] 5, [Call.on_enter 1])
    ∧ (SceneManager.mk [sceneA, sceneB] [] 5).pop [] =
      (Outcome.ok (Option.some sceneB), SceneManager.mk [sceneA] [] 5,
        [Call.on_leave 1])
    ∧ (SceneManager.mk [sceneA, sceneB] [] 5).replace sceneC [] =
      (Outcome.ok sceneB, SceneManager.mk [sceneA, sceneC] [] 5,
        [Call.on_enter 2, Call.on_leave 1]) :=
  ⟨(direct_methods_lifecycle (SceneManager.mk [sceneA] [] 5) sceneB [] sceneA []).1
      5 rfl,
   (direct_methods_lifecycle (SceneManager.mk [sceneA, sceneB] [] 5) sceneC [sceneA]
      sceneB []).2.1 rfl 5 rfl,
   (direct_methods_lifecycle (SceneManager.mk [sceneA, sceneB] [] 5) sceneC [sceneA]
      sceneB []).2.2 rfl 5 5 rfl rfl⟩

/-- C2 counterexample: when a scene's `on_update` fails during the walk,
the operations buffer is *not* drained at the end of the dispatch — on
`mgrLeak` the first frame returns an error and leaves the collected `Pop`
in the buffer — and that stale transition is applied during the next
frame: the second frame drains the leftover `Pop` together with its own
two transitions, emptying the two-scene stack and returning `Ok(false)`. -/
theorem ops_buffer_not_drained_counterexample :
    ((mgrLeak.on_update 0 []).2.1).operations.isEmpty = false
    ∧ ((mgrLeak.on_update 0 []).2.1).operations = [Transition.Pop]
    ∧ ((mgrLeak.on_update 0 []).2.1.on_update 0 []).1 = Outcome.ok false
    ∧ ((mgrLeak.on_update 0 []).2.1.on_update 0 []).2.1.scenes = ([] : List NScene) :=
  ⟨rfl, rfl, rfl, rfl⟩

/-- C2 amended: the operations buffer is fully drained at the end of every
dispatch whose walk phase succeeds — including dispatches where applying a
collected transition fails, since dropping the partially consumed drain
still empties the vector — but when a scene callback fails during the walk
itself, the transitions collected earlier in that frame remain in the
buffer (and are applied in a later dispatch, as the counterexample shows). -/
theorem ops_buffer_drained_unless_walk_fails (m : SceneManager C E Ev T)
    (t : T) (ev : Ev) (tr : List Call) :
    (∀ ops2 ctx2 tr2,
      updateWalk m.scenes.reverse m.ctx t m.operations tr =
        (Outcome.ok (), ops2, ctx2, tr2) →
      ((m.on_update t tr).2.1).operations = [])
    ∧ (∀ wh ops2 ctx2 tr2,
      eventWalk m.scenes.reverse m.ctx ev false m.operations tr =
        (Outcome.ok (), wh, ops2, ctx2, tr2) →
      ((m.on_event ev tr).2.1).operations = [])
    ∧ (∀ e ops2 ctx2 tr2,
      updateWalk m.scenes.reverse m.ctx t m.operations tr =
        (Outcome.err e, ops2, ctx2, tr2) →
      ((m.on_update t tr).2.1).operations = ops2) := by
  refine ⟨?_, ?_, ?_⟩
  · intro ops2 ctx2 tr2 hw
    rcases hd : drainApply ops2 m.scenes ctx2 tr2 with ⟨r, s3, c3, t3⟩
    cases r <;> simp [SceneManager.on_update, hw, hd]
  · intro wh ops2 ctx2 tr2 hw
    rcases hd : drainApply ops2 m.scenes ctx2 tr2 with ⟨r, s3, c3, t3⟩
    cases r <;> simp [SceneManager.on_event, hw, hd]
  · intro e ops2 ctx2 tr2 hw
    simp [SceneManager.on_update, hw]

/-- Witness for the amended C2: a successful `on_update` and a successful
`on_event` frame end with an empty buffer, while `mgrLeak`'s failing frame
ends with the collected `Pop` still buffered. -/
theorem ops_buffer_drained_unless_walk_fails_witness :
    ((SceneManager.mk [sceneB] [] 5).on_update 0 []).2.1.operations =
      ([] : List NTransition)
    ∧ ((SceneManager.mk [sceneB] [] 5).on_event 0 []).2.1.operations =
      ([] : List NTransition)
    ∧ ((mgrLeak.on_update 0 []).2.1).operations = [Transition.Pop] :=
  ⟨(ops_buffer_drained_unless_walk_fails (SceneManager.mk [sceneB] [] 5) 0 0 []).1
      [Transition.None] 5 [Call.on_update 1, Call.draw_next 1] rfl,
   (ops_buffer_drained_unless_walk_fails (SceneManager.mk [sceneB] [] 5) 0 0 []).2.1
      false [Transition.None] 5 [Call.on_event 1, Call.draw_next 1] rfl,
   (ops_buffer_drained_unless_walk_fails mgrLeak 0 0 []).2.2
      7 [Transition.Pop] 1 [Call.on_update 2, Call.draw_next 2, Call.on_update 5] rfl⟩

end SGEScene
